import Mathlib

/-!
# Verification of the landing-stats bulk enrichment scripts

Shallow embedding of the three maintenance scripts
(`scripts/bulk_ip_geolocation.py`, `scripts/bulk_normalize_user_agents.py`,
`scripts/populate_ip_geolocation.py`) and proofs of the specification's
claims about them.

External collaborators (the MaxMind reader, the `ua_parser` library, the
`tld` library's `get_fld`, the YAML-loaded bot signature/pattern sets) are
modelled as explicit parameters; everything written in the repository
itself is translated directly from the Python source.
-/

namespace LandingStats

/-! ## Character/string primitives modelling the Python string operations -/

/-- ASCII lower-casing of one character (model of `str.lower` per character;
the data flowing through these scripts is ASCII). -/
def lowerCh (c : Char) : Char :=
  if c.isUpper then Char.ofNat (c.toNat + 32) else c

/-- Model of Python `str.lower()`. -/
def lowerStr (s : String) : String := ⟨s.data.map lowerCh⟩

/-- `needleIsPre needle hay`: `needle` is a prefix of `hay` (over char lists). -/
def needleIsPre : List Char → List Char → Bool
  | [], _ => true
  | _ :: _, [] => false
  | a :: as, b :: bs => a == b && needleIsPre as bs

/-- `needleInside needle hay`: `needle` occurs as a contiguous substring of
`hay`.  Model of Python's `needle in hay` for strings (in particular the
empty needle is inside everything). -/
def needleInside : List Char → List Char → Bool
  | needle, [] => needleIsPre needle []
  | needle, h :: t => needleIsPre needle (h :: t) || needleInside needle t

/-- Python `needle in hay` on `String`s. -/
def containsSub (hay needle : String) : Bool :=
  needleInside needle.data hay.data

/-- Model of Python `str.split(c)` for a one-character separator:
always returns at least one (possibly empty) chunk, splits at every
occurrence. -/
def splitOnCh (c : Char) : List Char → List (List Char)
  | [] => [[]]
  | h :: t =>
    if h == c then [] :: splitOnCh c t
    else
      match splitOnCh c t with
      | [] => [[h]]
      | g :: gs => (h :: g) :: gs

/-- Characters up to (excluding) the first occurrence of `c`:
Python `s.split(c)[0]`. -/
def takeUntilCh (c : Char) : List Char → List Char
  | [] => []
  | h :: t => if h == c then [] else h :: takeUntilCh c t

def isSpaceCh (c : Char) : Bool :=
  c == ' ' || c == '\t' || c == '\n' || c == '\r' || c == '\x0b' || c == '\x0c'

/-- Model of Python `str.strip()` (whitespace trim on both ends). -/
def stripWs (l : List Char) : List Char :=
  ((l.dropWhile isSpaceCh).reverse.dropWhile isSpaceCh).reverse

def isAsciiDigit (c : Char) : Bool := '0' ≤ c && c ≤ '9'

def isHexDigitCh (c : Char) : Bool :=
  isAsciiDigit c || ('a' ≤ c && c ≤ 'f') || ('A' ≤ c && c ≤ 'F')

/-- Decimal value of a digit string (callers check the digits first). -/
def digitsVal (l : List Char) : Nat :=
  l.foldl (fun n c => n * 10 + (c.toNat - '0'.toNat)) 0

/-! ## IP address validation

Model of `is_valid_ip` (`bulk_ip_geolocation.py` lines 63-71 and
`populate_ip_geolocation.py` lines 118-127), which delegates to CPython's
`ipaddress.ip_address`: the string must parse as an IPv4 or an IPv6
address.  The parsing rules below follow CPython's
`IPv4Address._ip_int_from_string` / `IPv6Address._ip_int_from_string`. -/

/-- One dotted-quad octet: 1-3 ASCII digits, no leading zero, value ≤ 255. -/
def octetOk (p : List Char) : Bool :=
  !p.isEmpty && p.all isAsciiDigit && p.length ≤ 3 &&
    !(p.length > 1 && p.head? == some '0') && digitsVal p ≤ 255

/-- Valid dotted-quad IPv4 address: exactly four valid octets. -/
def ipv4Ok (l : List Char) : Bool :=
  let parts := splitOnCh '.' l
  parts.length == 4 && parts.all octetOk

/-- One IPv6 hextet: 1-4 hex digits. -/
def hextetOk (p : List Char) : Bool :=
  !p.isEmpty && p.all isHexDigitCh && p.length ≤ 4

/-- Body of the IPv6 grammar, after the scope id has been removed.
Mirrors CPython's `IPv6Address._ip_int_from_string`: split on `:`,
translate a trailing embedded IPv4 address into two hextets, allow at most
one `::` run, and check the hextet counts on both sides of it. -/
def ipv6CoreOk (l : List Char) : Bool :=
  let parts := splitOnCh ':' l
  if parts.length < 3 then false
  else
    -- a '.' in the last chunk means an embedded IPv4 suffix; it is parsed
    -- as IPv4 and stands for two (always valid) hextets
    let lastHasDot := (parts.getLast?.getD []).contains '.'
    let ok4 := !lastHasDot || ipv4Ok (parts.getLast?.getD [])
    if !ok4 then false
    else
      let ps := if lastHasDot then parts.dropLast ++ [['0'], ['0']] else parts
      let n := ps.length
      if n > 9 then false
      else
        let inner := (ps.dropLast).drop 1
        let empties := (inner.filter (·.isEmpty)).length
        if empties > 1 then false
        else if empties == 1 then
          let si := 1 + inner.findIdx (·.isEmpty)
          let headEmpty := ps.head? == some []
          let lastEmpty := ps.getLast? == some []
          let hi := if headEmpty then si - 1 else si
          let lo := if lastEmpty then n - si - 2 else n - si - 1
          -- `parts_skipped = 8 - (hi + lo)` must be at least 1
          (!headEmpty || hi == 0) && (!lastEmpty || lo == 0) &&
            hi + lo ≤ 7 &&
            (ps.take hi).all hextetOk && (ps.drop (n - lo)).all hextetOk
        else
          n == 8 && !(ps.head? == some []) && !(ps.getLast? == some []) &&
            ps.all hextetOk

/-- IPv6 address with optional `%scope` suffix (CPython `_split_scope_id`):
at most one `%`, and a non-empty scope id after it. -/
def ipv6Ok (l : List Char) : Bool :=
  match splitOnCh '%' l with
  | [a] => ipv6CoreOk a
  | [a, sid] => !sid.isEmpty && ipv6CoreOk a
  | _ => false

/-- `is_valid_ip` from the scripts: empty/falsy input is invalid, otherwise
the string must parse as an IPv4 or IPv6 address. -/
def is_valid_ip (s : String) : Bool :=
  if s = "" then false
  else ipv4Ok s.data || ipv6Ok s.data

/-! ## Geolocation lookup

`lookup_ip_location` (`bulk_ip_geolocation.py` lines 74-90; the identical
method `GeoIPUpdater.get_ip_location` is at `populate_ip_geolocation.py`
lines 129-145).  The MaxMind reader is an external collaborator, modelled
as a function into the possible outcomes of `country_reader.country(ip)`. -/

/-- Outcome of one call to the MaxMind country reader:
a response (whose `iso_code` may be absent), an `AddressNotFoundError`,
or any other exception. -/
inductive GeoResult where
  | found (iso : Option String)
  | notFound
  | failure
  deriving DecidableEq

/-- Reserved code for unknown or unspecified countries. -/
def UNKNOWN_COUNTRY : String := "ZZ"

/-- `lookup_ip_location(ip_str, country_reader)`: invalid input fails closed
to the sentinel; a response's `iso_code` is used only when truthy
(non-`None` and non-empty); every exception path also yields the
sentinel.  Total by construction, like the Python function (which catches
every exception). -/
def lookup_ip_location (reader : String → GeoResult) (ip_str : String) : String :=
  if is_valid_ip ip_str = false then UNKNOWN_COUNTRY
  else
    match reader ip_str with
    | .found (some c) => if c = "" then UNKNOWN_COUNTRY else c
    | .found none => UNKNOWN_COUNTRY
    | .notFound => UNKNOWN_COUNTRY
    | .failure => UNKNOWN_COUNTRY

/-! ## User-agent normalization

`is_bot` and `normalize_user_agent` (`bulk_normalize_user_agents.py`
lines 139-233).  The YAML-loaded custom signatures and Matomo regex
patterns are external data, modelled as a list of (lower-case) signature
strings and a list of predicates; `ua_parser.user_agent_parser.Parse` is
an external library, modelled as a function returning the three family
strings, with `none` standing for the case that the `try` block raises. -/

/-- Result of `ua_parser.user_agent_parser.Parse`: the three family
strings (`user_agent`, `os`, `device`). -/
structure UAParse where
  browser_family : String
  os_family : String
  device_family : String
  deriving DecidableEq

/-- Result tuple of `normalize_user_agent`: `(browser, os, device, is_bot)`. -/
structure NormUA where
  browser : Option String
  os : Option String
  device : Option String
  isBot : Bool
  deriving DecidableEq

/-- `is_bot(user_agent_string)`: falsy input is not a bot; otherwise the
custom signatures are checked first by case-insensitive substring match
against the lower-cased string, then the Matomo regex patterns are run
against the original string. -/
def is_bot (sigs : List String) (pats : List (String → Bool))
    (user_agent_string : String) : Bool :=
  if user_agent_string = "" then false
  else
    let ua_lower := lowerStr user_agent_string
    sigs.any (fun sig => containsSub ua_lower sig) ||
      pats.any (fun pattern => pattern user_agent_string)

/-- Chrome alias list from the consolidation step. -/
def chromeAliases : List (Option String) :=
  [some "Chrome Mobile", some "Chrome Mobile iOS", some "Chrome Mobile WebView",
   some "Google", some "Chromium"]

/-- Safari alias list from the consolidation step. -/
def safariAliases : List (Option String) :=
  [some "Mobile Safari", some "Safari Mobile", some "Mobile Safari UI/WKWebView"]

/-- Opera alias list from the consolidation step. -/
def operaAliases : List (Option String) := [some "Opera Mini", some "Opera Mobile"]

/-- `normalize_user_agent(user_agent_string)` (lines 185-233):
empty input yields all-null non-bot; a bot-classified string
short-circuits to all-null with `is_bot = true` before the parser runs;
otherwise the family strings are normalized ("Other"/falsy collapse to
null), browser aliases are consolidated, and the device class comes from
keyword heuristics on the lower-cased string.  A raise inside the `try`
block (`parse = none`) degrades to all-null non-bot. -/
def normalize_user_agent (sigs : List String) (pats : List (String → Bool))
    (parse : String → Option UAParse) (user_agent_string : String) : NormUA :=
  if user_agent_string = "" then ⟨none, none, none, false⟩
  else if is_bot sigs pats user_agent_string then ⟨none, none, none, true⟩
  else
    match parse user_agent_string with
    | none => ⟨none, none, none, false⟩
    | some parsed =>
      let browser_family := parsed.browser_family
      let os_family := parsed.os_family
      let browser0 : Option String :=
        if browser_family ≠ "" ∧ browser_family ≠ "Other" then some browser_family else none
      let os_name : Option String :=
        if os_family ≠ "" ∧ os_family ≠ "Other" then some os_family else none
      let browser1 := if browser0 ∈ chromeAliases then some "Chrome" else browser0
      let browser2 := if browser1 ∈ safariAliases then some "Safari" else browser1
      let browser3 := if browser2 ∈ operaAliases then some "Opera" else browser2
      let ua_lower := lowerStr user_agent_string
      let device : String :=
        if containsSub ua_lower "mobile" || containsSub ua_lower "phone" then "Mobile"
        else if containsSub ua_lower "tablet" || containsSub ua_lower "ipad" then "Tablet"
        else "Desktop"
      ⟨browser3, os_name, some device, false⟩

/-! ## Referrer and domain normalization

`normalize_referrer` and `normalize_domain` (`bulk_normalize_user_agents.py`
lines 236-265).  `tld.get_fld(-, fail_silently=True)` is an external
collaborator, modelled as a function `String → Option String` (`none` for
a silent failure). -/

/-- The exclusion set of `normalize_referrer`. -/
def referrerExclusions : List String := ["localhost", "127.0.0.1", "dropcatch.com"]

/-- `normalize_referrer(referrer)`: falsy input and every failure path
yield null; a truthy first-level domain outside the exclusion set is
returned lower-cased. -/
def normalize_referrer (getFld : String → Option String) (referrer : String) :
    Option String :=
  if referrer = "" then none
  else
    match getFld referrer with
    | some domain =>
      if domain ≠ "" ∧ domain ∉ referrerExclusions then some (lowerStr domain) else none
    | none => none

/-- The scheme prefixes stripped by `normalize_domain`, in loop order. -/
def schemePrefixes : List (List Char) :=
  ["http://".data, "https://".data, "ftp://".data]

/-- `normalize_domain(domain)` (lines 249-265): falsy input yields null;
otherwise the string is stripped and lower-cased, scheme prefixes are
removed in loop order, the part before the first `/`, `?`, `#` is kept,
and `get_fld('http://' + domain)` is consulted — when it yields a truthy
domain that is returned lower-cased, otherwise the cleaned string itself
is returned (note: no exclusion set, and no null on failure). -/
def normalize_domain (getFld : String → Option String) (domain : String) :
    Option String :=
  if domain = "" then none
  else
    let d0 := (lowerStr ⟨stripWs domain.data⟩).data
    let d1 := schemePrefixes.foldl
      (fun d pre => if needleIsPre pre d then d.drop pre.length else d) d0
    let d2 := takeUntilCh '#' (takeUntilCh '?' (takeUntilCh '/' d1))
    let cleaned : String := ⟨d2⟩
    match getFld ("http://" ++ cleaned) with
    | some normalized =>
      if normalized ≠ "" then some (lowerStr normalized) else some cleaned
    | none => some cleaned

/-! ## Shared batch machinery

CSV staging: a value is written as `value or ''` and re-loaded with
`null=''`, so an empty string round-trips to SQL NULL. -/

/-- COPY FROM with `null=''`: an empty CSV field loads as NULL. -/
def csvField (s : String) : Option String :=
  if s = "" then none else some s

/-- Round trip of an optional value through `value or ''` and `null=''`. -/
def csvRound (v : Option String) : Option String :=
  csvField (v.getD "")

/-- SQL `COALESCE` on two nullable values. -/
def sqlCoalesce {α : Type} (a b : Option α) : Option α :=
  match a with
  | some x => some x
  | none => b

/-- SQL `NULLIF(x, '')`. -/
def sqlNullifEmpty (x : Option String) : Option String :=
  match x with
  | some v => if v = "" then none else some v
  | none => none

/-- Stable insertion into a list sorted descending by `key`
(model of `ORDER BY timestamp DESC`). -/
def insertDescBy {α : Type} (key : α → Nat) (a : α) : List α → List α
  | [] => [a]
  | h :: t => if key a ≥ key h then a :: h :: t else h :: insertDescBy key a t

/-- Sort a list descending by `key` (model of `ORDER BY timestamp DESC`). -/
def sortDescBy {α : Type} (key : α → Nat) (l : List α) : List α :=
  l.foldr (insertDescBy key) []

/-- `LIMIT n` when a limit is given. -/
def applyLimit {α : Type} (limit : Option Nat) (l : List α) : List α :=
  match limit with
  | some n => l.take n
  | none => l

/-! ## The geolocation pipeline (`bulk_ip_geolocation.py`, `bulk_process`) -/

/-- A live row of `metrics_page_views` as seen by the geolocation script:
identifier, raw `ip`, derived `country`, and the recency timestamp used
for extraction ordering. -/
structure GeoRow where
  id : Nat
  ip : Option String
  country : Option String
  timestamp : Nat
  deriving DecidableEq

/-- The extraction `WHERE` clause (lines 134-140): force mode takes every
row with an `ip`; incremental mode additionally requires `country` NULL. -/
def geoPred (force : Bool) (r : GeoRow) : Bool :=
  if force then r.ip.isSome else r.ip.isSome && r.country.isNone

/-- Step 1, the `COPY (SELECT id, ip ... ORDER BY timestamp DESC LIMIT ...)`
export: the candidate records of one run. -/
def geoExtract (force : Bool) (limit : Option Nat) (rows : List GeoRow) :
    List GeoRow :=
  applyLimit limit (sortDescBy GeoRow.timestamp (rows.filter (geoPred force)))

/-- Step 2, the offline transform: one `(id, country)` staging record per
candidate (a NULL `ip` exports as an empty CSV field). -/
def geoStage (reader : String → GeoResult) (cands : List GeoRow) :
    List (Nat × String) :=
  cands.map (fun r => (r.id, lookup_ip_location reader (r.ip.getD "")))

/-- Step 5, the per-row effect of
`SET country = COALESCE(NULLIF(t.country, ''), m.country)` joined on
`m.id = t.id`; rows without a staging partner are untouched. -/
def geoMergeRow (staged : List (Nat × String)) (m : GeoRow) : GeoRow :=
  match staged.find? (fun t => t.1 == m.id) with
  | some t => { m with country := sqlCoalesce (sqlNullifEmpty (csvField t.2)) m.country }
  | none => m

/-- The whole bulk `UPDATE ... FROM temp_ip_geolocation`. -/
def geoMergeTable (staged : List (Nat × String)) (rows : List GeoRow) :
    List GeoRow :=
  rows.map (geoMergeRow staged)

/-- `bulk_process(limit, dry_run, force)` as a function from the live table
to the resulting live table and the number of processed records: extract,
transform offline, and either stop after the report (dry run) or stage
and merge. -/
def geoBulkProcess (reader : String → GeoResult) (limit : Option Nat)
    (dry_run force : Bool) (rows : List GeoRow) : List GeoRow × Nat :=
  let cands := geoExtract force limit rows
  let staged := geoStage reader cands
  if dry_run then (rows, staged.length)
  else (geoMergeTable staged rows, staged.length)

/-! ## The user-agent pipeline (`bulk_normalize_user_agents.py`,
`process_table`) -/

/-- A live row of a metrics table as seen by the normalization script.
`referrer`/`domain` and their derived columns only exist in some tables;
for a table without them the corresponding fields are never read. -/
structure UARow where
  id : Nat
  user_agent : Option String
  referrer : Option String
  domain : Option String
  browser_normalized : Option String
  os_normalized : Option String
  device_normalized : Option String
  referrer_normalized : Option String
  domain_normalized : Option String
  is_bot : Option Bool
  timestamp : Nat
  deriving DecidableEq

/-- One staging record of `temp_normalized_data` (after the CSV round
trip, so empty fields are NULL); the optional columns exist only when the
live table has them. -/
structure UAStaged where
  id : Nat
  browser_normalized : Option String
  os_normalized : Option String
  device_normalized : Option String
  referrer_normalized : Option String
  domain_normalized : Option String
  is_bot : Option Bool
  deriving DecidableEq

/-- Column detection (lines 315-317): referrer handling needs both
`referrer` and `referrer_normalized` in the table. -/
def hasReferrerCols (columns : List String) : Bool :=
  columns.contains "referrer" && columns.contains "referrer_normalized"

/-- Column detection for `domain`/`domain_normalized`. -/
def hasDomainCols (columns : List String) : Bool :=
  columns.contains "domain" && columns.contains "domain_normalized"

/-- The extraction `WHERE` clause (lines 336-354): `WHERE 1=1` under
force; otherwise a disjunction of "raw present and a derived column NULL"
conditions, the optional ones only when the table has the columns. -/
def uaPred (force hasRef hasDom : Bool) (r : UARow) : Bool :=
  if force then true
  else
    (r.user_agent.isSome &&
      (r.browser_normalized.isNone || r.os_normalized.isNone ||
        r.device_normalized.isNone)) ||
    (hasRef && (r.referrer.isSome && r.referrer_normalized.isNone)) ||
    (hasDom && (r.domain.isSome && r.domain_normalized.isNone))

/-- Step 1, the `COPY ... ORDER BY timestamp DESC LIMIT ...` export. -/
def uaExtract (force hasRef hasDom : Bool) (limit : Option Nat)
    (rows : List UARow) : List UARow :=
  applyLimit limit (sortDescBy UARow.timestamp (rows.filter (uaPred force hasRef hasDom)))

/-- Step 2, the per-record transform (lines 406-452): normalize the user
agent (a NULL or empty field short-circuits to all-null non-bot), the
referrer and the domain (only when the columns exist and the field is
truthy), then write the CSV row (empty strings for nulls, `is_bot` always
written as a literal) — shown here after the `null=''` re-load. -/
def uaTransformRow (sigs : List String) (pats : List (String → Bool))
    (parse : String → Option UAParse) (getFld : String → Option String)
    (hasRef hasDom : Bool) (r : UARow) : UAStaged :=
  let ua := r.user_agent.getD ""
  let nua := if ua ≠ "" then normalize_user_agent sigs pats parse ua
             else ⟨none, none, none, false⟩
  let referrer := r.referrer.getD ""
  let referrer_norm := if hasRef && referrer ≠ "" then normalize_referrer getFld referrer
                       else none
  let domain := r.domain.getD ""
  let domain_norm := if hasDom && domain ≠ "" then normalize_domain getFld domain
                     else none
  { id := r.id
    browser_normalized := csvRound nua.browser
    os_normalized := csvRound nua.os
    device_normalized := csvRound nua.device
    referrer_normalized := if hasRef then csvRound referrer_norm else none
    domain_normalized := if hasDom then csvRound domain_norm else none
    is_bot := some nua.isBot }

/-- Step 2 over all candidates. -/
def uaStage (sigs : List String) (pats : List (String → Bool))
    (parse : String → Option UAParse) (getFld : String → Option String)
    (hasRef hasDom : Bool) (cands : List UARow) : List UAStaged :=
  cands.map (uaTransformRow sigs pats parse getFld hasRef hasDom)

/-- Step 5, the per-row effect of the dynamic `SET` clause
(lines 547-567): the three bot-sensitive columns are forced NULL when
`t.is_bot`, else coalesced staged-over-live; referrer/domain columns are
coalesced when they exist; `is_bot` is coalesced staged-over-live. -/
def uaMergeRow (hasRef hasDom : Bool) (t : UAStaged) (m : UARow) : UARow :=
  { m with
    browser_normalized :=
      if t.is_bot = some true then none
      else sqlCoalesce t.browser_normalized m.browser_normalized
    os_normalized :=
      if t.is_bot = some true then none
      else sqlCoalesce t.os_normalized m.os_normalized
    device_normalized :=
      if t.is_bot = some true then none
      else sqlCoalesce t.device_normalized m.device_normalized
    referrer_normalized :=
      if hasRef then sqlCoalesce t.referrer_normalized m.referrer_normalized
      else m.referrer_normalized
    domain_normalized :=
      if hasDom then sqlCoalesce t.domain_normalized m.domain_normalized
      else m.domain_normalized
    is_bot := sqlCoalesce t.is_bot m.is_bot }

/-- The whole bulk `UPDATE ... FROM temp_normalized_data`. -/
def uaMergeTable (hasRef hasDom : Bool) (staged : List UAStaged)
    (rows : List UARow) : List UARow :=
  rows.map (fun m =>
    match staged.find? (fun t => t.id == m.id) with
    | some t => uaMergeRow hasRef hasDom t m
    | none => m)

/-- `process_table(table_name, limit, dry_run, force)` as a function from
the live table (with its column list) to the resulting live table and the
number of processed records. -/
def uaProcessTable (sigs : List String) (pats : List (String → Bool))
    (parse : String → Option UAParse) (getFld : String → Option String)
    (columns : List String) (limit : Option Nat) (dry_run force : Bool)
    (rows : List UARow) : List UARow × Nat :=
  let hasRef := hasReferrerCols columns
  let hasDom := hasDomainCols columns
  let cands := uaExtract force hasRef hasDom limit rows
  let staged := uaStage sigs pats parse getFld hasRef hasDom cands
  if dry_run then (rows, staged.length)
  else (uaMergeTable hasRef hasDom staged rows, staged.length)

/-! ## Phase/connection traces of the two bulk drivers

The straight-line order of the phases and of the explicit
connect/close calls, read off the source of `bulk_process`
(`bulk_ip_geolocation.py` lines 117-299) and `process_table`
(`bulk_normalize_user_agents.py` lines 301-582).  Used for the claims
about what runs while a store connection is held. -/

/-- One observable step of a bulk driver run. -/
inductive Ev where
  | connect
  | extracting
  | closeConn
  | transforming
  | staging
  | merging
  | reporting
  deriving DecidableEq

/-- Phase order of `bulk_ip_geolocation.bulk_process`: connect (117),
COPY export (152), `conn.close()` (169), offline GeoIP loop (183-220);
a dry run stops after the report (226-233), otherwise reconnect (237),
temp-table load (250-270), bulk UPDATE (279), close (`finally`, 298). -/
def geoRunEvents (dry_run : Bool) : List Ev :=
  [.connect, .extracting, .closeConn, .transforming] ++
    (if dry_run then [.reporting]
     else [.connect, .staging, .merging, .closeConn, .reporting])

/-- Phase order of `bulk_normalize_user_agents.process_table`: connect
(302), column query + COPY export (315-367), offline normalization loop
(390-462) — the connection is still open here — then for a dry run the
report and the `finally` close (467-474, 581); otherwise `conn.close()`
(478), reconnect (482), temp-table load (510-537), bulk UPDATE (561),
close (`finally`, 581). -/
def uaRunEvents (dry_run : Bool) : List Ev :=
  [.connect, .extracting, .transforming] ++
    (if dry_run then [.reporting, .closeConn]
     else [.closeConn, .connect, .staging, .merging, .closeConn, .reporting])

/-- Annotate each step with whether a store connection is open when the
step runs (the state produced by the preceding connect/close steps). -/
def annotateConn (open_ : Bool) : List Ev → List (Ev × Bool)
  | [] => []
  | e :: t =>
    (e, open_) ::
      annotateConn (match e with
        | .connect => true
        | .closeConn => false
        | _ => open_) t

/-! ## Schema validation of `populate_ip_geolocation.py`

`GeoIPUpdater.validate_table` (lines 174-195) and the abort in
`process_records` (lines 225-231); contrasted with
`bulk_normalize_user_agents.get_table_columns` (lines 268-279), which
merely lists columns and guards no extraction. -/

/-- A database schema: the tables present, each with its column list. -/
def Schema : Type := List (String × List String)

/-- The `information_schema.columns` query of `get_table_columns`
(lines 268-279): the columns of `table_name`, empty when the table is
absent. -/
def get_table_columns (schema : Schema) (table_name : String) : List String :=
  ((schema.find? (fun t => t.1 == table_name)).map (fun t => t.2)).getD []

/-- The `information_schema.tables` existence check of `validate_table`. -/
def tableExists (schema : Schema) (table_name : String) : Bool :=
  (schema.find? (fun t => t.1 == table_name)).isSome

/-- The required columns checked by `validate_table`. -/
def popRequiredColumns : List String := ["id", "ip", "country"]

/-- `GeoIPUpdater.validate_table`: the table must exist and each of
`id`, `ip`, `country` must be a column of it. -/
def validate_table (schema : Schema) (table_name : String) : Bool :=
  tableExists schema table_name &&
    popRequiredColumns.all (fun c => (get_table_columns schema table_name).contains c)

/-- Store operations a run may issue, used to record what each script
does (and in which order) against the database. -/
inductive StoreOp where
  | queryInformationSchema (table_name : String)
  | extractRecords (table_name : String)
  | updateRecords (table_name : String)
  deriving DecidableEq

/-- The store operations of `GeoIPUpdater.process_records`
(lines 218-294) up to and including extraction: the schema validation
queries always run; the `SELECT id, ip` extraction runs only when
validation succeeded — on failure the run aborts
("Table validation failed. Aborting.") before any extraction. -/
def popProcessRecordsOps (schema : Schema) (table_name : String) : List StoreOp :=
  if validate_table schema table_name then
    [.queryInformationSchema table_name, .extractRecords table_name]
  else
    [.queryInformationSchema table_name]

/-- Success/abort outcome of `process_records` as far as schema handling
is concerned: `false` is the validation abort (the function returns
`False`, surfacing exit code 1). -/
def popProcessRecordsOk (schema : Schema) (table_name : String) : Bool :=
  validate_table schema table_name

/-- The store operations of `process_table`
(`bulk_normalize_user_agents.py` lines 312-367) up to and including
extraction: the column listing is consulted only to pick the optional
columns, and the `COPY` extraction is then issued unconditionally — there
is no validation step that could abort first, whatever the schema. -/
def uaProcessTableOps (_schema : Schema) (table_name : String) : List StoreOp :=
  [.queryInformationSchema table_name, .extractRecords table_name]

/-! ## Concrete sample values

Instantiations of the external collaborators and sample rows, used to
evaluate the pipeline on closed inputs. -/

/-- A one-signature custom bot list (the built-in fallback is `['bot']`). -/
def sigs0 : List String := ["bot"]

/-- An empty Matomo pattern corpus. -/
def pats0 : List (String → Bool) := []

/-- A parser stub whose `try` block always raises. -/
def parse0 : String → Option UAParse := fun _ => none

/-- A parser stub recognising one desktop Chrome user agent. -/
def parseChrome : String → Option UAParse :=
  fun s => if s = "Chrome Test UA" then some ⟨"Chrome", "Windows", "Other"⟩ else none

/-- A `get_fld` stub that always fails silently. -/
def getFldNone : String → Option String := fun _ => none

/-- A `get_fld` stub for one referrer URL. -/
def getFldRefEx : String → Option String :=
  fun s => if s = "https://News.Example.com/page" then some "Example.com" else none

/-- A `get_fld` stub that resolves the excluded domain, as the real
`tld` library does for `http://dropcatch.com`. -/
def getFldDropEx : String → Option String :=
  fun s => if s = "http://dropcatch.com" then some "dropcatch.com" else none

/-- A `get_fld` stub resolving everything to `localhost`. -/
def getFldLocal : String → Option String := fun _ => some "localhost"

/-- A MaxMind reader stub knowing one address. -/
def reader0 : String → GeoResult :=
  fun s => if s = "8.8.8.8" then .found (some "US") else .notFound

/-- A live page-view row whose user agent is a crawler and whose derived
fields were never normalized. -/
def botRowEx : UARow :=
  ⟨1, some "Googlebot/2.1", none, none, none, none, none, none, none, none, 5⟩

/-- The base column list of a metrics table without referrer/domain. -/
def columns0 : List String :=
  ["id", "user_agent", "browser_normalized", "os_normalized",
   "device_normalized", "is_bot", "timestamp"]

/-- A live row with known-good derived fields. -/
def liveRowEx : UARow :=
  ⟨3, some "x", none, none, some "Firefox", some "Linux", some "Desktop",
   none, none, some false, 9⟩

/-- A bot-flagged staging record. -/
def stagedBotEx : UAStaged := ⟨3, none, none, none, none, none, some true⟩

/-- A geolocation candidate row (country still unresolved). -/
def geoRowEx : GeoRow := ⟨7, some "8.8.8.8", none, 3⟩

/-- The same live row with a stale country, to be overwritten. -/
def geoRowStale : GeoRow := ⟨7, some "8.8.8.8", some "DE", 3⟩

/-! ## Helper lemmas -/

theorem mem_insertDescBy {α : Type} (key : α → Nat) (x a : α) (l : List α) :
    a ∈ insertDescBy key x l ↔ a = x ∨ a ∈ l := by
  induction l with
  | nil => simp [insertDescBy]
  | cons h t ih =>
    simp only [insertDescBy]
    split
    · simp [List.mem_cons]
    · simp only [List.mem_cons, ih]
      tauto

theorem mem_sortDescBy {α : Type} (key : α → Nat) (l : List α) (a : α) :
    a ∈ sortDescBy key l ↔ a ∈ l := by
  induction l with
  | nil => simp [sortDescBy]
  | cons h t ih =>
    show a ∈ insertDescBy key h (sortDescBy key t) ↔ a ∈ h :: t
    rw [mem_insertDescBy, ih]
    simp [List.mem_cons]

theorem length_insertDescBy {α : Type} (key : α → Nat) (x : α) (l : List α) :
    (insertDescBy key x l).length = l.length + 1 := by
  induction l with
  | nil => simp [insertDescBy]
  | cons h t ih =>
    simp only [insertDescBy]
    split
    · simp
    · simp [ih]

theorem length_sortDescBy {α : Type} (key : α → Nat) (l : List α) :
    (sortDescBy key l).length = l.length := by
  induction l with
  | nil => rfl
  | cons h t ih =>
    show (insertDescBy key h (sortDescBy key t)).length = t.length + 1
    rw [length_insertDescBy, ih]

theorem lookup_ip_location_ne_empty (reader : String → GeoResult) (s : String) :
    lookup_ip_location reader s ≠ "" := by
  unfold lookup_ip_location
  split
  · decide
  · split
    · split
      · decide
      · assumption
    · decide
    · decide
    · decide

/-! ## The claims -/

/-- C2: every user-agent string classified as a bot short-circuits to
exactly `(browser = null, os = null, device = null, is_bot = true)`, and
the result does not depend on the parsing library at all (swapping the
parser for any other function changes nothing). -/
theorem bot_ua_short_circuits (sigs : List String) (pats : List (String → Bool))
    (parse : String → Option UAParse) (ua : String)
    (h : is_bot sigs pats ua = true) :
    normalize_user_agent sigs pats parse ua = ⟨none, none, none, true⟩ ∧
      ∀ parse2 : String → Option UAParse,
        normalize_user_agent sigs pats parse ua = normalize_user_agent sigs pats parse2 ua := by
  have hne : ua ≠ "" := by
    intro he
    rw [he] at h
    simp [is_bot] at h
  constructor
  · simp [normalize_user_agent, hne, h]
  · intro parse2
    simp [normalize_user_agent, hne, h]

/-- Witness for C2 at the crawler UA `"Googlebot/2.1"` and the fallback
signature list. -/
theorem bot_ua_short_circuits_witness :
    is_bot sigs0 pats0 "Googlebot/2.1" = true ∧
      normalize_user_agent sigs0 pats0 parse0 "Googlebot/2.1" = ⟨none, none, none, true⟩ :=
  ⟨by decide, (bot_ua_short_circuits sigs0 pats0 parse0 "Googlebot/2.1" (by decide)).1⟩

/-- C3: the geolocation lookup is total by construction (every exception
path is caught and yields the sentinel); an invalid input string — in
particular `""` and `"not-an-ip"` — yields `"ZZ"`, and a valid IP that
the reference dataset resolves to a 2-letter code yields exactly that
code. -/
theorem lookup_ip_total_dichotomy (reader : String → GeoResult) (ip c : String) :
    (is_valid_ip ip = false → lookup_ip_location reader ip = "ZZ") ∧
    (is_valid_ip ip = true → reader ip = .found (some c) → c.length = 2 →
      lookup_ip_location reader ip = c) ∧
    lookup_ip_location reader "" = "ZZ" ∧
    lookup_ip_location reader "not-an-ip" = "ZZ" := by
  refine ⟨?_, ?_, ?_, ?_⟩
  · intro h
    simp [lookup_ip_location, h, UNKNOWN_COUNTRY]
  · intro hv hr hc
    have hne : c ≠ "" := by
      intro he
      subst he
      exact absurd hc (by decide)
    simp [lookup_ip_location, hv, hr, hne]
  · have h0 : is_valid_ip "" = false := by decide
    simp [lookup_ip_location, h0, UNKNOWN_COUNTRY]
  · have h0 : is_valid_ip "not-an-ip" = false := by decide
    simp [lookup_ip_location, h0, UNKNOWN_COUNTRY]

/-- Witness for C3: a dataset-resolved address returns its code, the
empty string returns the sentinel. -/
theorem lookup_ip_total_dichotomy_witness :
    lookup_ip_location reader0 "8.8.8.8" = "US" ∧
      lookup_ip_location reader0 "" = "ZZ" := by
  have h := lookup_ip_total_dichotomy reader0 "8.8.8.8" "US"
  exact ⟨h.2.1 (by decide) (by decide) (by decide), h.2.2.1⟩

/-- C1: per-column merge precedence of the bulk UPDATE.  When the staged
record is bot-flagged the three bot-sensitive live columns become null
and `is_bot` becomes true; otherwise each of them is the staged value
when present, else the live value; the optional referrer/domain columns
(and, in the geolocation merge, `country` via
`COALESCE(NULLIF(t.country,''), m.country)`) take the staged value when
non-empty and keep the live one when empty; the bot flag is overwritten
by the staged value whenever one is present. -/
theorem merge_precedence_per_column (hasRef hasDom : Bool) (t : UAStaged) (m : UARow) :
    (t.is_bot = some true →
      (uaMergeRow hasRef hasDom t m).browser_normalized = none ∧
      (uaMergeRow hasRef hasDom t m).os_normalized = none ∧
      (uaMergeRow hasRef hasDom t m).device_normalized = none ∧
      (uaMergeRow hasRef hasDom t m).is_bot = some true) ∧
    (t.is_bot = some false →
      (uaMergeRow hasRef hasDom t m).browser_normalized
        = sqlCoalesce t.browser_normalized m.browser_normalized ∧
      (uaMergeRow hasRef hasDom t m).os_normalized
        = sqlCoalesce t.os_normalized m.os_normalized ∧
      (uaMergeRow hasRef hasDom t m).device_normalized
        = sqlCoalesce t.device_normalized m.device_normalized) ∧
    (hasRef = true →
      (uaMergeRow hasRef hasDom t m).referrer_normalized
        = sqlCoalesce t.referrer_normalized m.referrer_normalized) ∧
    (hasDom = true →
      (uaMergeRow hasRef hasDom t m).domain_normalized
        = sqlCoalesce t.domain_normalized m.domain_normalized) ∧
    (∀ b : Bool, t.is_bot = some b → (uaMergeRow hasRef hasDom t m).is_bot = some b) ∧
    (∀ (v : String) (mv : Option String), sqlCoalesce (some v) mv = some v) ∧
    (∀ mv : Option String, sqlCoalesce none mv = mv) ∧
    (∀ (c : String) (mc : Option String), c ≠ "" →
      sqlCoalesce (sqlNullifEmpty (csvField c)) mc = some c) ∧
    (∀ mc : Option String, sqlCoalesce (sqlNullifEmpty (csvField "")) mc = mc) := by
  refine ⟨?_, ?_, ?_, ?_, ?_, ?_, ?_, ?_, ?_⟩
  · intro h
    simp [uaMergeRow, h, sqlCoalesce]
  · intro h
    simp [uaMergeRow, h]
  · intro h
    simp [uaMergeRow, h]
  · intro h
    simp [uaMergeRow, h]
  · intro b h
    cases b <;> simp [uaMergeRow, h, sqlCoalesce]
  · intro v mv
    rfl
  · intro mv
    rfl
  · intro c mc hc
    simp [csvField, sqlNullifEmpty, sqlCoalesce, hc]
  · intro mc
    rfl

/-- Witness for C1: a bot-flagged staging record nulls a live row's
known-good browser field and sets its bot flag; a non-empty staged
country overwrites a live one. -/
theorem merge_precedence_per_column_witness :
    (uaMergeRow true true stagedBotEx liveRowEx).browser_normalized = none ∧
    (uaMergeRow true true stagedBotEx liveRowEx).is_bot = some true ∧
    sqlCoalesce (sqlNullifEmpty (csvField "US")) (some "DE") = some "US" := by
  have h := merge_precedence_per_column true true stagedBotEx liveRowEx
  exact ⟨(h.1 rfl).1, (h.1 rfl).2.2.2,
    h.2.2.2.2.2.2.2.1 "US" (some "DE") (by decide)⟩

/-- C4 counterexample: the empty user-agent string is not classified as a
bot, yet the normalizer returns a null device, which is none of
Mobile/Tablet/Desktop — so the claim fails for the empty string (whose
all-null behaviour the spec itself records). -/
theorem nonbot_device_counterexample :
    is_bot sigs0 pats0 "" = false ∧
    (normalize_user_agent sigs0 pats0 parse0 "").device = none ∧
    (normalize_user_agent sigs0 pats0 parse0 "").device
      ∉ [some "Mobile", some "Tablet", some "Desktop"] := by
  refine ⟨rfl, rfl, ?_⟩
  decide

/-- C4 (amended): a user-agent string not classified as a bot always gets
`is_bot = false`; when it is moreover non-empty and the parser returns a
result, its device class is one of Mobile/Tablet/Desktop (empty input and
a parser raise yield the all-null non-bot result instead). -/
theorem nonbot_device_classes (sigs : List String) (pats : List (String → Bool))
    (parse : String → Option UAParse) (ua : String) (p : UAParse)
    (h : is_bot sigs pats ua = false) :
    (normalize_user_agent sigs pats parse ua).isBot = false ∧
    (ua ≠ "" → parse ua = some p →
      (normalize_user_agent sigs pats parse ua).device
        ∈ [some "Mobile", some "Tablet", some "Desktop"]) := by
  constructor
  · by_cases he : ua = ""
    · simp [normalize_user_agent, he]
    · simp only [normalize_user_agent, he, h, if_false]
      cases hp : parse ua <;> simp
  · intro hne hp
    have hbot : ¬ is_bot sigs pats ua = true := by simp [h]
    unfold normalize_user_agent
    rw [if_neg hne, if_neg hbot, hp]
    by_cases h1 : (containsSub (lowerStr ua) "mobile" || containsSub (lowerStr ua) "phone") = true
    · simp [h1]
    · by_cases h2 : (containsSub (lowerStr ua) "tablet" || containsSub (lowerStr ua) "ipad") = true
      · simp [h1, h2]
      · simp [h1, h2]

/-- Witness for C4 at a desktop Chrome user agent. -/
theorem nonbot_device_classes_witness :
    (normalize_user_agent sigs0 pats0 parseChrome "Chrome Test UA").isBot = false ∧
    (normalize_user_agent sigs0 pats0 parseChrome "Chrome Test UA").device
      ∈ [some "Mobile", some "Tablet", some "Desktop"] := by
  have h := nonbot_device_classes sigs0 pats0 parseChrome "Chrome Test UA"
    ⟨"Chrome", "Windows", "Other"⟩ (by decide)
  exact ⟨h.1, h.2 (by decide) (by decide)⟩

/-- C5: a dry run with `--limit N` leaves the live table unchanged and
reports exactly `min N available` processed records, in both scripts, and
the dry-run phase sequence contains no staging and no merging step. -/
theorem dry_run_short_circuits (reader : String → GeoResult)
    (sigs : List String) (pats : List (String → Bool))
    (parse : String → Option UAParse) (getFld : String → Option String)
    (columns : List String) (n : Nat) (force : Bool)
    (rows : List GeoRow) (urows : List UARow) :
    geoBulkProcess reader (some n) true force rows
      = (rows, min n ((rows.filter (geoPred force)).length)) ∧
    uaProcessTable sigs pats parse getFld columns (some n) true force urows
      = (urows, min n ((urows.filter
          (uaPred force (hasReferrerCols columns) (hasDomainCols columns))).length)) ∧
    Ev.staging ∉ geoRunEvents true ∧ Ev.merging ∉ geoRunEvents true ∧
    Ev.staging ∉ uaRunEvents true ∧ Ev.merging ∉ uaRunEvents true := by
  refine ⟨?_, ?_, by decide, by decide, by decide, by decide⟩
  · simp [geoBulkProcess, geoExtract, geoStage, applyLimit, length_sortDescBy]
  · simp [uaProcessTable, uaExtract, uaStage, applyLimit, length_sortDescBy]

/-- C6 counterexample: a table holding one crawler row is *not* processed
to a fixed point by the user-agent pipeline — the merge leaves the bot
row's derived columns NULL, so an immediately repeated incremental run
extracts and processes the same record again (1 record, not 0). -/
theorem incremental_idempotence_counterexample :
    (uaProcessTable sigs0 pats0 parse0 getFldNone columns0 none false false
        [botRowEx]).2 = 1 ∧
    (uaProcessTable sigs0 pats0 parse0 getFldNone columns0 none false false
        ((uaProcessTable sigs0 pats0 parse0 getFldNone columns0 none false false
          [botRowEx]).1)).2 = 1 := by
  constructor <;> decide

/-- C6 (amended): the geolocation pipeline is idempotent in incremental
mode — after one complete unlimited non-dry incremental run, a second
incremental run extracts no candidates and processes zero records
(every staged country is non-empty, so every extracted row's `country`
becomes non-NULL).  The user-agent pipeline does not have this property:
rows whose derived columns remain NULL after the merge (bot rows in
particular) are extracted again. -/
theorem geo_incremental_idempotent (reader : String → GeoResult) (rows : List GeoRow) :
    geoExtract false none ((geoBulkProcess reader none false false rows).1) = [] ∧
    (geoBulkProcess reader none false false
        ((geoBulkProcess reader none false false rows).1)).2 = 0 := by
  set staged := geoStage reader (geoExtract false none rows) with hstaged
  have hfilter : (geoMergeTable staged rows).filter (geoPred false) = [] := by
    rw [List.filter_eq_nil_iff]
    intro r' hr'
    rw [geoMergeTable, List.mem_map] at hr'
    obtain ⟨m, hm, hmr⟩ := hr'
    subst hmr
    intro hpred
    cases hfind : staged.find? (fun t => t.1 == m.id) with
    | some t =>
      have ht : t ∈ staged := List.mem_of_find?_eq_some hfind
      have ht2 : t.2 ≠ "" := by
        rw [hstaged] at ht
        rw [geoStage, List.mem_map] at ht
        obtain ⟨r, hr, hrt⟩ := ht
        rw [← hrt]
        exact lookup_ip_location_ne_empty reader _
      have hmerge : geoMergeRow staged m
          = { m with country := sqlCoalesce (sqlNullifEmpty (csvField t.2)) m.country } := by
        simp [geoMergeRow, hfind]
      rw [hmerge] at hpred
      simp [geoPred, csvField, sqlNullifEmpty, sqlCoalesce, ht2] at hpred
    | none =>
      have hmerge : geoMergeRow staged m = m := by simp [geoMergeRow, hfind]
      rw [hmerge] at hpred
      have hm2 : m ∈ rows.filter (geoPred false) := List.mem_filter.2 ⟨hm, hpred⟩
      have hm3 : m ∈ sortDescBy GeoRow.timestamp (rows.filter (geoPred false)) :=
        (mem_sortDescBy _ _ _).2 hm2
      have hmem : (m.id, lookup_ip_location reader (m.ip.getD "")) ∈ staged := by
        rw [hstaged]
        exact List.mem_map_of_mem _ hm3
      have hnone := List.find?_eq_none.1 hfind _ hmem
      simp at hnone
  constructor
  · show geoExtract false none (geoMergeTable staged rows) = []
    rw [geoExtract, hfilter]
    rfl
  · show (geoStage reader (geoExtract false none (geoMergeTable staged rows))).length = 0
    rw [geoExtract, hfilter]
    rfl

/-- C7 counterexample: against an empty schema (the target table absent),
the user-agent normalization script still issues its extraction `COPY` —
it has no validation step that aborts before extraction; the failure
surfaces from the store during extraction instead. -/
theorem schema_validation_counterexample :
    tableExists ([] : Schema) "metrics_page_views" = false ∧
    StoreOp.extractRecords "metrics_page_views"
      ∈ uaProcessTableOps ([] : Schema) "metrics_page_views" := by
  constructor <;> decide

/-- C7 (amended): the `populate_ip_geolocation` pipeline validates the
table and its required columns (`id`, `ip`, `country`) and, when the
table or a required column is absent, fails its run and aborts before
issuing any extraction; the bulk normalization script performs no such
validation and issues its extraction regardless of the schema. -/
theorem schema_validation_aborts (schema : Schema) (table_name : String)
    (h : tableExists schema table_name = false ∨
      ∃ c ∈ popRequiredColumns, (get_table_columns schema table_name).contains c = false) :
    popProcessRecordsOk schema table_name = false ∧
    StoreOp.extractRecords table_name ∉ popProcessRecordsOps schema table_name ∧
    StoreOp.extractRecords table_name ∈ uaProcessTableOps schema table_name := by
  have hv : validate_table schema table_name = false := by
    cases hval : validate_table schema table_name with
    | false => rfl
    | true =>
      rw [validate_table, Bool.and_eq_true] at hval
      rcases h with h | ⟨c, hc, hcc⟩
      · simp [h] at hval
      · have h2 : (get_table_columns schema table_name).contains c = true :=
          List.all_eq_true.1 hval.2 c hc
        rw [h2] at hcc
        simp at hcc
  refine ⟨hv, ?_, ?_⟩
  · simp [popProcessRecordsOps, hv]
  · simp [uaProcessTableOps]

/-- Witness for C7: a table missing the required `country` column makes
the populate pipeline abort with no extraction issued. -/
theorem schema_validation_aborts_witness :
    popProcessRecordsOk [("metrics_page_views", ["id", "ip"])] "metrics_page_views" = false ∧
    StoreOp.extractRecords "metrics_page_views"
      ∉ popProcessRecordsOps [("metrics_page_views", ["id", "ip"])] "metrics_page_views" := by
  have h := schema_validation_aborts [("metrics_page_views", ["id", "ip"])]
    "metrics_page_views" (Or.inr ⟨"country", by decide, by decide⟩)
  exact ⟨h.1, h.2.1⟩

/-- C8 counterexample: the domain normalizer applies no exclusion set and
does not return null on parse failure — with `get_fld` resolving
`http://dropcatch.com` (as the real `tld` library does) the excluded
domain is returned as-is, and with `get_fld` failing silently the cleaned
input string is returned instead of null. -/
theorem referrer_domain_counterexample :
    normalize_domain getFldDropEx "dropcatch.com" = some "dropcatch.com" ∧
    normalize_domain getFldNone "no-such-tld-xyz" = some "no-such-tld-xyz" := by
  constructor <;> decide

/-- C8 (amended): `normalize_referrer` is total and behaves as claimed —
null on falsy input, on every `get_fld` failure and on an excluded
domain, and the lower-cased registrable domain otherwise — but
`normalize_domain` applies no exclusion set and never returns null on a
non-empty input: on `get_fld` failure it returns the cleaned input
string itself. -/
theorem referrer_domain_normalizers (getFld : String → Option String)
    (referrer dval dom : String) :
    normalize_referrer getFld "" = none ∧
    (getFld referrer = none → normalize_referrer getFld referrer = none) ∧
    (getFld referrer = some dval → dval ∈ referrerExclusions →
      normalize_referrer getFld referrer = none) ∧
    (referrer ≠ "" → getFld referrer = some dval → dval ≠ "" →
      dval ∉ referrerExclusions →
      normalize_referrer getFld referrer = some (lowerStr dval)) ∧
    (dom ≠ "" → normalize_domain getFld dom ≠ none) := by
  refine ⟨rfl, ?_, ?_, ?_, ?_⟩
  · intro h
    by_cases he : referrer = ""
    · simp [normalize_referrer, he]
    · simp [normalize_referrer, he, h]
  · intro h hmem
    by_cases he : referrer = ""
    · simp [normalize_referrer, he]
    · simp [normalize_referrer, he, h, hmem]
  · intro hne h hd hnmem
    simp [normalize_referrer, hne, h, hd, hnmem]
  · intro hd hcontra
    unfold normalize_domain at hcontra
    rw [if_neg hd] at hcontra
    dsimp only at hcontra
    split at hcontra <;> first
      | (split at hcontra <;> simp_all)
      | simp_all

/-- Witness for C8: a referrer resolving to a lower-cased domain, a
referrer resolving to an excluded domain, and a non-empty domain input
on which `get_fld` fails. -/
theorem referrer_domain_normalizers_witness :
    normalize_referrer getFldRefEx "https://News.Example.com/page" = some "example.com" ∧
    normalize_referrer getFldLocal "http://localhost:3000/x" = none ∧
    normalize_domain getFldNone "sub.test" ≠ none := by
  have h1 := referrer_domain_normalizers getFldRefEx "https://News.Example.com/page"
    "Example.com" "x"
  have h2 := referrer_domain_normalizers getFldLocal "http://localhost:3000/x"
    "localhost" "x"
  have h3 := referrer_domain_normalizers getFldNone "" "" "sub.test"
  refine ⟨?_, ?_, ?_⟩
  · have hr := h1.2.2.2.1 (by decide) (by decide) (by decide) (by decide)
    rw [hr]
    decide
  · exact h2.2.2.1 (by decide) (by decide)
  · exact h3.2.2.2.2 (by decide)

/-- C9 counterexample: in the user-agent script's non-dry run, the
transforming phase executes while the store connection opened for
extraction is still open — the connection is only closed afterwards. -/
theorem conn_held_during_transform_counterexample :
    (Ev.transforming, true) ∈ annotateConn false (uaRunEvents false) := by decide

/-- C9 (amended): the geolocation script closes its connection between
extraction and transformation, so its transforming phase always runs
with no open connection; the user-agent script's transforming phase runs
with the extraction connection still open, and the connection is
released only between transformation and the staging/merging
reconnect. -/
theorem conn_release_phases :
    ∀ dry_run : Bool,
      (annotateConn false (geoRunEvents dry_run)).filter (fun p => p.1 == Ev.transforming)
        = [(Ev.transforming, false)] ∧
      (annotateConn false (uaRunEvents dry_run)).filter (fun p => p.1 == Ev.transforming)
        = [(Ev.transforming, true)] ∧
      List.Sublist [Ev.transforming, Ev.closeConn, Ev.connect, Ev.staging, Ev.merging]
        (uaRunEvents false) := by
  intro dry_run
  cases dry_run <;> exact ⟨by decide, by decide, by decide⟩

/-- C10: every country value staged by the geolocation transform is a
non-empty string (an ISO code or the sentinel `"ZZ"`), so the merge
overwrites the live `country` of every row joined with a staging record
— the keep-existing `COALESCE` fallback is unreachable for the country
column. -/
theorem staged_country_always_overwrites (reader : String → GeoResult)
    (cands : List GeoRow) (m : GeoRow) (i : Nat) (c : String)
    (h : (geoStage reader cands).find? (fun t => t.1 == m.id) = some (i, c)) :
    (∀ ip : String, lookup_ip_location reader ip ≠ "") ∧
    c ≠ "" ∧
    (geoMergeRow (geoStage reader cands) m).country = some c := by
  have hmem := List.mem_of_find?_eq_some h
  have hc : c ≠ "" := by
    rw [geoStage, List.mem_map] at hmem
    obtain ⟨r, hr, hrt⟩ := hmem
    have h2 : (r.id, lookup_ip_location reader (r.ip.getD "")).2 = (i, c).2 := by
      rw [hrt]
    simp at h2
    rw [← h2]
    exact lookup_ip_location_ne_empty reader _
  refine ⟨fun ip => lookup_ip_location_ne_empty reader ip, hc, ?_⟩
  simp [geoMergeRow, h, csvField, sqlNullifEmpty, sqlCoalesce, hc]

/-- Witness for C10: a staged `"US"` overwrites a live row's stale
`"DE"`. -/
theorem staged_country_always_overwrites_witness :
    (geoMergeRow (geoStage reader0 [geoRowEx]) geoRowStale).country = some "US" := by
  have h := staged_country_always_overwrites reader0 [geoRowEx] geoRowStale 7 "US" (by decide)
  exact h.2.2

end LandingStats
